import Mathlib

/-!
Shallow embedding of `src/backend/db/seed_data.py` (a synthetic-data seeding
script) and proofs about its generation pipeline.

Modelling conventions used throughout:
* Randomness: every call into Python's `random` module consumes one raw
  natural number from an abstract oracle stream `Nat → Nat`, threaded as
  explicit state `RState = (stream, position)`.  `random.randint a b` maps a
  raw value `r` to `a + r % (b - a + 1)`; `random.choice xs` picks index
  `r % xs.length`; `random.random()` is modelled as `(r % 1000) / 1000 : ℚ`;
  `random.uniform a b` as `a + (r % 10001) / 10000 * (b - a) : ℚ`.
* Floating point money values are modelled as exact rationals; Python's
  `round(x, 2)` is modelled by round-half-to-even at two decimals (`round2`).
* `datetime` values are modelled as seconds (`Nat`); `timedelta(days=d)` is
  `d * 86400`, `timedelta(hours=h)` is `h * 3600`; Faker date draws consume
  one oracle value.
* Opaque external functions (bcrypt, sha256 hex digests, Python's string
  `hash`) are passed in as function parameters.
* MongoDB documents get identifiers equal to their insertion index; `find`
  returns documents in insertion order and `find_one` the first match.
-/

/-- A random oracle: an infinite stream of raw draws plus the current
position.  Each primitive of Python's `random` module consumes one value. -/
abbrev RState := (Nat → Nat) × Nat

/-- Consume one raw value from the oracle. -/
def draw (s : RState) : Nat × RState := (s.1 s.2, (s.1, s.2 + 1))

/-- `random.randint a b` (inclusive bounds). -/
def randint (a b : Nat) (s : RState) : Nat × RState :=
  let (r, s1) := draw s
  (a + r % (b - a + 1), s1)

/-- `random.choice xs` for a nonempty list (`d` is a dummy default; all call
sites guarantee `xs ≠ []`). -/
def chooseL {α : Type} (xs : List α) (d : α) (s : RState) : α × RState :=
  let (r, s1) := draw s
  ((xs.getD (r % xs.length) d), s1)

/-- `random.random()` as a rational in `[0, 1)`. -/
def pyrandom (s : RState) : ℚ × RState :=
  let (r, s1) := draw s
  (((r % 1000 : Nat) : ℚ) / 1000, s1)

/-- `random.uniform a b` as a rational in `[a, b]`. -/
def pyuniform (a b : ℚ) (s : RState) : ℚ × RState :=
  let (r, s1) := draw s
  (a + ((r % 10001 : Nat) : ℚ) / 10000 * (b - a), s1)

/-- Round-half-to-even to an integer (Python's `round` on exact values). -/
def roundHalfEven (q : ℚ) : ℤ :=
  if q - ⌊q⌋ < 1/2 then ⌊q⌋
  else if 1/2 < q - ⌊q⌋ then ⌊q⌋ + 1
  else if Even ⌊q⌋ then ⌊q⌋ else ⌊q⌋ + 1

/-- Python's `round(x, 2)`: round to two decimal places, ties to even. -/
def round2 (q : ℚ) : ℚ := (roundHalfEven (q * 100) : ℚ) / 100

theorem chooseL_mem {α : Type} (xs : List α) (d : α) (s : RState)
    (hxs : xs ≠ []) : (chooseL xs d s).1 ∈ xs := by
  unfold chooseL draw
  simp only
  have hlen : 0 < xs.length := List.length_pos.2 hxs
  have hlt : s.1 s.2 % xs.length < xs.length := Nat.mod_lt _ hlen
  rw [List.getD_eq_get _ _ hlt]
  exact List.get_mem _ _ _

theorem roundHalfEven_le {q : ℚ} {b : ℤ} (h : q ≤ (b : ℚ)) :
    roundHalfEven q ≤ b := by
  have hfl : ⌊q⌋ ≤ b := by simpa using Int.floor_mono h
  have key : ¬ (q - ⌊q⌋ < 1/2) → ⌊q⌋ < b := by
    intro hn
    rcases lt_or_eq_of_le hfl with h3 | h3
    · exact h3
    · exfalso
      apply hn
      have hq1 : (⌊q⌋ : ℚ) ≤ q := Int.floor_le q
      have hq2 : q ≤ (⌊q⌋ : ℚ) := by rw [h3]; exact h
      have hz : q - ⌊q⌋ = 0 := by linarith
      rw [hz]; norm_num
  unfold roundHalfEven
  split_ifs with h1 h2 h3
  · exact hfl
  · have := key h1; omega
  · exact hfl
  · have := key h1; omega

theorem roundHalfEven_ge {q : ℚ} {a : ℤ} (h : (a : ℚ) ≤ q) :
    a ≤ roundHalfEven q := by
  have hfl : a ≤ ⌊q⌋ := Int.le_floor.2 h
  unfold roundHalfEven
  split_ifs <;> omega

/-- `round2` keeps a value inside integer bounds `[a, b]`. -/
theorem round2_mem_Icc {q : ℚ} {a b : ℤ} (ha : (a : ℚ) ≤ q) (hb : q ≤ b) :
    (a : ℚ) ≤ round2 q ∧ round2 q ≤ b := by
  unfold round2
  constructor
  · have h1 : ((a * 100 : ℤ) : ℚ) ≤ q * 100 := by push_cast; nlinarith
    have h2 : (a * 100 : ℤ) ≤ roundHalfEven (q * 100) := roundHalfEven_ge h1
    have h3 : ((a * 100 : ℤ) : ℚ) ≤ (roundHalfEven (q * 100) : ℚ) := by
      exact_mod_cast h2
    push_cast at h3
    linarith
  · have h1 : q * 100 ≤ ((b * 100 : ℤ) : ℚ) := by push_cast; nlinarith
    have h2 : roundHalfEven (q * 100) ≤ (b * 100 : ℤ) := roundHalfEven_le h1
    have h3 : (roundHalfEven (q * 100) : ℚ) ≤ ((b * 100 : ℤ) : ℚ) := by
      exact_mod_cast h2
    push_cast at h3
    linarith

theorem pyuniform_mem_Icc (a b : ℚ) (s : RState) (hab : a ≤ b) :
    a ≤ (pyuniform a b s).1 ∧ (pyuniform a b s).1 ≤ b := by
  unfold pyuniform draw
  simp only
  set k : Nat := s.1 s.2 % 10001 with hk
  have hk1 : k ≤ 10000 := by
    have := Nat.mod_lt (s.1 s.2) (show 0 < 10001 by norm_num)
    omega
  have hk0 : (0 : ℚ) ≤ (k : ℚ) := by positivity
  have hk2 : (k : ℚ) ≤ 10000 := by exact_mod_cast hk1
  constructor
  · nlinarith
  · nlinarith

/-! ## Data model and transaction generator (`create_transactions`) -/

/-- Transaction statuses appearing in the script (`INITIATED` occurs only in
transaction logs). -/
inductive Status where
  | INITIATED
  | ESCROWED
  | SHIPPED
  | DELIVERED
  | SETTLED
  | FAILED
deriving DecidableEq, Repr

/-- The projection of a product document read back by `create_transactions`
(`_id`, `cooperativeId`, `price`). Identifiers are insertion indices. -/
structure ProductRec where
  id : Nat
  cooperativeId : Nat
  price : ℚ
deriving DecidableEq, Repr

/-- A generated transaction document. -/
structure Txn where
  buyerId : Nat
  sellerId : Nat
  productId : Nat
  quantity : Nat
  amount : ℚ
  fee : ℚ
  totalAmount : ℚ
  status : Status
  escrowTransactionId : Option String
  qrSignature : Option String
  settledAt : Option Nat
  createdAt : Nat
  updatedAt : Nat
deriving DecidableEq, Repr

/-- The cooperative-to-seller map built from
`{str(c['_id']): c['userId'] for c in db.cooperatives.find(...)}`;
`.get` returns `none` for an absent cooperative id. -/
def lookupSeller (coops : List (Nat × Nat)) (cid : Nat) : Option Nat :=
  (coops.find? (fun p => p.1 == cid)).map (fun p => p.2)

/-- The status multiset drawn from the fixed weighted distribution
(lines 519-526): `int(n*w)` of each status in declaration order, padded to
`n` with `SETTLED`. -/
def buildStatuses (n : Nat) : List Status :=
  let base :=
    List.replicate (n * 60 / 100) Status.SETTLED ++
    List.replicate (n * 15 / 100) Status.DELIVERED ++
    List.replicate (n * 10 / 100) Status.SHIPPED ++
    List.replicate (n * 10 / 100) Status.ESCROWED ++
    List.replicate (n * 5 / 100) Status.FAILED
  base ++ List.replicate (n - base.length) Status.SETTLED

/-- `random.shuffle` modelled as an oracle-driven permutation: repeatedly
draw an index into the remaining elements and move that element to the
output. -/
def shuffleAux {α : Type} (d : α) : Nat → List α → RState → List α × RState
  | 0, _, s => ([], s)
  | _ + 1, [], s => ([], s)
  | m + 1, x :: xs, s =>
    let r := draw s
    let k := r.1 % (x :: xs).length
    let rest := shuffleAux d m ((x :: xs).eraseIdx k) r.2
    ((x :: xs).getD k d :: rest.1, rest.2)

def shuffleL {α : Type} (d : α) (xs : List α) (s : RState) : List α × RState :=
  shuffleAux d xs.length xs s

/-- One iteration of the transaction loop (lines 530-584).  Returns `none`
(the `continue`) when the drawn product's cooperative has no resolvable
seller, otherwise the built transaction document.  `sha` is the opaque
sha256-hexdigest function. -/
def txStep (sha : String → String) (buyers : List Nat)
    (products : List ProductRec) (coops : List (Nat × Nat)) (st : Status)
    (s : RState) : Option Txn × RState :=
  let c1 := chooseL buyers 0 s
  let c2 := chooseL products ⟨0, 0, 0⟩ c1.2
  let product := c2.1
  match lookupSeller coops product.cooperativeId with
  | none => (none, c2.2)
  | some sellerId =>
    let r1 := randint 1 5 c2.2
    let r2 := if product.price < 50 then randint 2 10 r1.2 else r1
    let quantity := r2.1
    let amount := round2 (product.price * (quantity : ℚ))
    let fee := round2 (amount * (5 / 100))
    let totalAmount := round2 (amount + fee)
    let r3 := draw r2.2
    let createdAt := r3.1
    let r4 := pyrandom r3.2
    let r5 :=
      if (1 : ℚ) / 10 < r4.1 then
        let e := randint 100000 999999 r4.2
        (some ("ESC" ++ toString e.1), e.2)
      else (none, r4.2)
    let qrSignature :=
      if st = Status.DELIVERED ∨ st = Status.SETTLED then
        some ((sha (toString c1.1 ++ toString product.id ++
          toString createdAt)).take 32)
      else none
    let r6 :=
      if st = Status.SETTLED then
        let d := randint 1 7 r5.2
        (some (createdAt + d.1 * 86400), d.2)
      else (none, r5.2)
    let settledAt := r6.1
    let r7 :=
      match settledAt with
      | some t => (t, r6.2)
      | none =>
        let d := randint 0 3 r6.2
        (createdAt + d.1 * 86400, d.2)
    (some
      { buyerId := c1.1, sellerId := sellerId, productId := product.id
        quantity := quantity, amount := amount, fee := fee
        totalAmount := totalAmount, status := st
        escrowTransactionId := r5.1, qrSignature := qrSignature
        settledAt := settledAt, createdAt := createdAt
        updatedAt := r7.1 }, r7.2)

/-- The transaction loop over the (shuffled) status list. -/
def txLoop (sha : String → String) (buyers : List Nat)
    (products : List ProductRec) (coops : List (Nat × Nat)) :
    List Status → RState → List Txn × RState
  | [], s => ([], s)
  | st :: rest, s =>
    let o := txStep sha buyers products coops st s
    let ts := txLoop sha buyers products coops rest o.2
    match o.1 with
    | some t => (t :: ts.1, ts.2)
    | none => ts

/-- `create_transactions` (lines 490-593): the early return when no buyers
or no products exist, status construction, shuffle, and the draw loop. -/
def createTransactions (sha : String → String) (buyers : List Nat)
    (products : List ProductRec) (coops : List (Nat × Nat)) (n : Nat)
    (s : RState) : List Txn × RState :=
  if buyers = [] ∨ products = [] then ([], s)
  else
    let sh := shuffleL Status.SETTLED (buildStatuses n) s
    txLoop sha buyers products coops sh.1 sh.2

/-! ## Transaction logs (lines 596-652) -/

/-- The canonical status progression `status_order`. -/
def statusOrder : List Status :=
  [Status.INITIATED, Status.ESCROWED, Status.SHIPPED, Status.DELIVERED,
   Status.SETTLED]

/-- `status_order.index(final) if final in status_order else 0`. -/
def statusIndexOf (st : Status) : Nat :=
  if st ∈ statusOrder then statusOrder.indexOf st else 0

/-- The status sequence of the logs created for a final status
(lines 618-629). -/
def logsToCreate (st : Status) : List Status :=
  if st = Status.FAILED then [Status.INITIATED, Status.FAILED]
  else statusOrder.take (statusIndexOf st + 1)

/-- The per-status log messages of the `log_sequence` table. -/
def logMessage : Status → String
  | Status.INITIATED => "Transaction created and initiated"
  | Status.ESCROWED => "Funds escrowed successfully"
  | Status.SHIPPED => "Product shipped by seller"
  | Status.DELIVERED => "Product marked as delivered"
  | Status.SETTLED => "Payment released to seller"
  | Status.FAILED => "Transaction failed"

/-- A transaction-log document.  `apiResponse = none` models the empty
payload `{}`; `some (escrow, qr)` models the populated payload. -/
structure LogEntry where
  transactionId : Nat
  status : Status
  message : String
  apiResponse : Option (Option String × Option String)
  createdAt : Nat
deriving DecidableEq, Repr

/-- The `(buyerId, productId, createdAt)` triple used to re-find a stored
transaction. -/
def tripleOf (t : Txn) : Nat × Nat × Nat := (t.buyerId, t.productId, t.createdAt)

/-- `find_one` on the triple: first stored document (in insertion order,
with its insertion index as id) whose triple matches. -/
def findOneAux (b p c : Nat) : List Txn → Nat → Option (Nat × Txn)
  | [], _ => none
  | t :: ts, i =>
    if t.buyerId = b ∧ t.productId = p ∧ t.createdAt = c then some (i, t)
    else findOneAux b p c ts (i + 1)

def findOneTriple (store : List Txn) (b p c : Nat) : Option (Nat × Txn) :=
  findOneAux b p c store 0

/-- The log entries created for one in-memory transaction `tx` given the
stored collection `store` (lines 597-644): re-find the stored document by
triple; on failure create nothing; otherwise create the enumerated log
sequence, each entry two hours after the previous one. -/
def logsForTx (store : List Txn) (tx : Txn) : List LogEntry :=
  match findOneTriple store tx.buyerId tx.productId tx.createdAt with
  | none => []
  | some (txId, _) =>
    (logsToCreate tx.status).enum.map (fun e =>
      { transactionId := txId
        status := e.2
        message := logMessage e.2
        apiResponse :=
          if e.2 = Status.ESCROWED ∨ e.2 = Status.DELIVERED ∨
              e.2 = Status.SETTLED then
            some (tx.escrowTransactionId, tx.qrSignature)
          else none
        createdAt := tx.createdAt + e.1 * 2 * 3600 })

/-! ## Lemmas about the transaction generator -/

theorem getD_mem_of_lt {α : Type} (xs : List α) (d : α) (k : Nat)
    (h : k < xs.length) : xs.getD k d ∈ xs := by
  rw [List.getD_eq_get _ _ h]
  exact List.get_mem _ _ _

theorem mem_of_mem_eraseIdx {α : Type} {x : α} {l : List α} {k : Nat}
    (h : x ∈ l.eraseIdx k) : x ∈ l := by
  rw [List.eraseIdx_eq_take_drop_succ] at h
  rcases List.mem_append.1 h with h | h
  · exact List.mem_of_mem_take h
  · exact List.mem_of_mem_drop h

theorem shuffleAux_subset {α : Type} (d : α) :
    ∀ (m : Nat) (xs : List α) (s : RState) (x : α),
      x ∈ (shuffleAux d m xs s).1 → x ∈ xs := by
  intro m
  induction m with
  | zero => intro xs s x hx; simp [shuffleAux] at hx
  | succ m ih =>
    intro xs s x hx
    cases xs with
    | nil => simp [shuffleAux] at hx
    | cons y ys =>
      simp only [shuffleAux] at hx
      rcases List.mem_cons.1 hx with h | h
      · subst h
        exact getD_mem_of_lt _ _ _ (Nat.mod_lt _ (Nat.succ_pos _))
      · exact mem_of_mem_eraseIdx (ih _ _ _ h)

theorem mem_shuffleL {α : Type} (d : α) (xs : List α) (s : RState) (x : α)
    (hx : x ∈ (shuffleL d xs s).1) : x ∈ xs :=
  shuffleAux_subset d xs.length xs s x hx

/-- Every status of the weighted pool is one of the five drawable
statuses. -/
theorem mem_buildStatuses (n : Nat) (st : Status) (h : st ∈ buildStatuses n) :
    st = Status.SETTLED ∨ st = Status.DELIVERED ∨ st = Status.SHIPPED ∨
      st = Status.ESCROWED ∨ st = Status.FAILED := by
  simp only [buildStatuses, List.mem_append, List.mem_replicate] at h
  tauto

/-- The product drawn in one loop iteration (the value of
`product = random.choice(products)` together with the oracle state after the
two choice draws). -/
def drawnProduct (buyers : List Nat) (products : List ProductRec)
    (s : RState) : ProductRec × RState :=
  chooseL products ⟨0, 0, 0⟩ (chooseL buyers 0 s).2

/-- A loop iteration produces no transaction exactly when the drawn
product's cooperative has no resolvable seller (the `continue`). -/
theorem txStep_none_iff (sha : String → String) (buyers : List Nat)
    (products : List ProductRec) (coops : List (Nat × Nat)) (st : Status)
    (s : RState) :
    (txStep sha buyers products coops st s).1 = none ↔
      lookupSeller coops (drawnProduct buyers products s).1.cooperativeId
        = none := by
  unfold txStep drawnProduct
  cases hls : lookupSeller coops
      (chooseL products ⟨0, 0, 0⟩ (chooseL buyers 0 s).2).1.cooperativeId with
  | none => simp [hls]
  | some sellerId => simp [hls]

theorem randint_bounds (a b : Nat) (s : RState) (h : a ≤ b) :
    a ≤ (randint a b s).1 ∧ (randint a b s).1 ≤ b := by
  unfold randint draw
  simp only []
  have hm := Nat.mod_lt (s.1 s.2) (show 0 < b - a + 1 by omega)
  omega

/-- Everything a produced transaction document satisfies, read off one loop
iteration of `create_transactions`. -/
theorem txStep_some (sha : String → String) (buyers : List Nat)
    (products : List ProductRec) (coops : List (Nat × Nat)) (st : Status)
    (s : RState) (t : Txn) (s' : RState) (hp : products ≠ [])
    (h : txStep sha buyers products coops st s = (some t, s')) :
    t.status = st ∧
    (∃ p ∈ products, t.productId = p.id ∧
      lookupSeller coops p.cooperativeId = some t.sellerId ∧
      t.amount = round2 (p.price * (t.quantity : ℚ)) ∧
      t.fee = round2 (t.amount * (5 / 100)) ∧
      t.totalAmount = round2 (t.amount + t.fee)) ∧
    ((t.qrSignature ≠ none) ↔ (st = Status.DELIVERED ∨ st = Status.SETTLED)) ∧
    ((t.settledAt ≠ none) ↔ st = Status.SETTLED) ∧
    (∀ u, t.settledAt = some u →
      ∃ d, 1 ≤ d ∧ d ≤ 7 ∧ u = t.createdAt + d * 86400) := by
  have hmem : (chooseL products ⟨0, 0, 0⟩ (chooseL buyers 0 s).2).1 ∈ products :=
    chooseL_mem _ _ _ hp
  unfold txStep at h
  simp only [] at h
  cases hls : lookupSeller coops
      (chooseL products ⟨0, 0, 0⟩ (chooseL buyers 0 s).2).1.cooperativeId with
  | none => rw [hls] at h; simp at h
  | some sellerId =>
    rw [hls] at h
    simp only [Prod.mk.injEq, Option.some.injEq] at h
    obtain ⟨rfl, -⟩ := h
    refine ⟨rfl, ⟨_, hmem, rfl, hls, rfl, rfl, rfl⟩, ?_, ?_, ?_⟩
    · by_cases hc : st = Status.DELIVERED ∨ st = Status.SETTLED <;> simp [hc]
    · by_cases hc : st = Status.SETTLED <;> simp [hc]
    · intro u hu
      by_cases hc : st = Status.SETTLED
      · simp only [hc, if_true] at hu
        simp only [Option.some.injEq] at hu
        refine ⟨_, ?_, ?_, hu.symm⟩
        · exact (randint_bounds 1 7 _ (by norm_num)).1
        · exact (randint_bounds 1 7 _ (by norm_num)).2
      · simp [hc] at hu

/-- Every transaction in the loop output arises from one successful
iteration for some status of the list. -/
theorem txLoop_mem (sha : String → String) (buyers : List Nat)
    (products : List ProductRec) (coops : List (Nat × Nat)) :
    ∀ (sts : List Status) (s : RState) (t : Txn),
      t ∈ (txLoop sha buyers products coops sts s).1 →
      ∃ st, st ∈ sts ∧ ∃ s0 s1,
        txStep sha buyers products coops st s0 = (some t, s1) := by
  intro sts
  induction sts with
  | nil => intro s t ht; simp [txLoop] at ht
  | cons st rest ih =>
    intro s t ht
    simp only [txLoop] at ht
    cases ho : (txStep sha buyers products coops st s).1 with
    | some t' =>
      rw [ho] at ht
      rcases List.mem_cons.1 ht with h | h
      · subst h
        refine ⟨st, List.mem_cons_self _ _, s,
          (txStep sha buyers products coops st s).2, ?_⟩
        rw [← ho]
      · obtain ⟨st', hst', hs⟩ := ih _ _ h
        exact ⟨st', List.mem_cons_of_mem _ hst', hs⟩
    | none =>
      rw [ho] at ht
      obtain ⟨st', hst', hs⟩ := ih _ _ ht
      exact ⟨st', List.mem_cons_of_mem _ hst', hs⟩

/-- Every transaction of `create_transactions` output comes from a
successful `txStep` at a status of the weighted pool, with nonempty buyer
and product pools. -/
theorem createTransactions_mem (sha : String → String) (buyers : List Nat)
    (products : List ProductRec) (coops : List (Nat × Nat)) (n : Nat)
    (s : RState) (t : Txn)
    (ht : t ∈ (createTransactions sha buyers products coops n s).1) :
    products ≠ [] ∧ ∃ st, st ∈ buildStatuses n ∧ ∃ s0 s1,
      txStep sha buyers products coops st s0 = (some t, s1) := by
  unfold createTransactions at ht
  by_cases hg : buyers = [] ∨ products = []
  · rw [if_pos hg] at ht
    simp at ht
  · rw [if_neg hg] at ht
    push_neg at hg
    obtain ⟨st, hst, hs⟩ := txLoop_mem sha buyers products coops _ _ _ ht
    exact ⟨hg.2, st, mem_shuffleL _ _ _ _ hst, hs⟩

/-- No generated transaction carries the log-only status `INITIATED`. -/
theorem createTransactions_status_ne_INITIATED (sha : String → String)
    (buyers : List Nat) (products : List ProductRec)
    (coops : List (Nat × Nat)) (n : Nat) (s : RState) (t : Txn)
    (ht : t ∈ (createTransactions sha buyers products coops n s).1) :
    t.status ≠ Status.INITIATED := by
  obtain ⟨hp, st, hst, s0, s1, hs⟩ := createTransactions_mem _ _ _ _ _ _ _ ht
  have h1 := (txStep_some _ _ _ _ _ _ _ _ hp hs).1
  rcases mem_buildStatuses _ _ hst with h|h|h|h|h <;> rw [h1, h] <;> intro hc <;>
    cases hc

/-! ## Lemmas about transaction logs -/

theorem findOneAux_ne_none (b p c : Nat) :
    ∀ (store : List Txn) (i : Nat),
      (∃ u ∈ store, u.buyerId = b ∧ u.productId = p ∧ u.createdAt = c) →
      findOneAux b p c store i ≠ none := by
  intro store
  induction store with
  | nil => intro i h; simp at h
  | cons u us ih =>
    intro i h
    simp only [findOneAux]
    split
    · simp
    · next hcond =>
      apply ih
      obtain ⟨v, hv, hvp⟩ := h
      rcases List.mem_cons.1 hv with rfl | hv'
      · exact absurd hvp hcond
      · exact ⟨v, hv', hvp⟩

/-- When the `find_one` lookup succeeds, the created log entries carry
exactly the status sequence `logsToCreate tx.status`. -/
theorem logsForTx_statuses (store : List Txn) (tx : Txn)
    (h : findOneTriple store tx.buyerId tx.productId tx.createdAt ≠ none) :
    (logsForTx store tx).map (fun e => e.status) = logsToCreate tx.status := by
  unfold logsForTx
  cases hf : findOneTriple store tx.buyerId tx.productId tx.createdAt with
  | none => exact absurd hf h
  | some r =>
    cases r with
    | mk txId doc =>
      rw [List.map_map]
      have : ((fun e : LogEntry => e.status) ∘ fun e : Nat × Status =>
          ({ transactionId := txId, status := e.2, message := logMessage e.2
             apiResponse :=
               if e.2 = Status.ESCROWED ∨ e.2 = Status.DELIVERED ∨
                   e.2 = Status.SETTLED then
                 some (tx.escrowTransactionId, tx.qrSignature)
               else none
             createdAt := tx.createdAt + e.1 * 2 * 3600 } : LogEntry)) =
          Prod.snd := by
        funext e
        rfl
      rw [this, List.enum_map_snd]

/-- The spec's reading of a log sequence: the canonical order truncated at
and including the final status `st`. -/
def canonicalPrefixThrough (st : Status) : List Status :=
  statusOrder.takeWhile (fun x => x != st) ++ [st]

theorem logsToCreate_eq_claim (st : Status) (h : st ≠ Status.INITIATED) :
    logsToCreate st =
      if st = Status.FAILED then [Status.INITIATED, Status.FAILED]
      else canonicalPrefixThrough st := by
  cases st
  · exact absurd rfl h
  · decide
  · decide
  · decide
  · decide
  · decide

theorem findOneTriple_self_ne_none (store : List Txn) (tx : Txn)
    (h : tx ∈ store) :
    findOneTriple store tx.buyerId tx.productId tx.createdAt ≠ none :=
  findOneAux_ne_none _ _ _ store 0 ⟨tx, h, rfl, rfl, rfl⟩

/-- C1.  For every generated transaction with final status FAILED, the log
entries created for it form exactly [INITIATED, FAILED]; for any other
final status, they equal the canonical order
[INITIATED, ESCROWED, SHIPPED, DELIVERED, SETTLED] truncated at and
including that status. -/
theorem c1_log_sequences (sha : String → String) (buyers : List Nat)
    (products : List ProductRec) (coops : List (Nat × Nat)) (n : Nat)
    (s : RState) (t : Txn)
    (ht : t ∈ (createTransactions sha buyers products coops n s).1) :
    (logsForTx (createTransactions sha buyers products coops n s).1 t).map
        (fun e => e.status) =
      if t.status = Status.FAILED then [Status.INITIATED, Status.FAILED]
      else canonicalPrefixThrough t.status := by
  rw [logsForTx_statuses _ _ (findOneTriple_self_ne_none _ _ ht)]
  exact logsToCreate_eq_claim _
    (createTransactions_status_ne_INITIATED _ _ _ _ _ _ _ ht)

set_option maxRecDepth 8000 in
/-- Witness for C1: a concrete one-transaction run (all-zero oracle), whose
single SETTLED transaction gets the full canonical log sequence. -/
theorem c1_witness :
    (logsForTx
        (createTransactions (fun _ => "") [7] [⟨1, 3, 100⟩] [(3, 42)] 1
          (fun _ => 0, 0)).1
        { buyerId := 7, sellerId := 42, productId := 1, quantity := 1
          amount := 100, fee := 5, totalAmount := 105
          status := Status.SETTLED, escrowTransactionId := none
          qrSignature := some "", settledAt := some 86400, createdAt := 0
          updatedAt := 86400 }).map (fun e => e.status) =
      if ({ buyerId := 7, sellerId := 42, productId := 1, quantity := 1
            amount := 100, fee := 5, totalAmount := 105
            status := Status.SETTLED, escrowTransactionId := none
            qrSignature := some "", settledAt := some 86400, createdAt := 0
            updatedAt := 86400 } : Txn).status = Status.FAILED then
        [Status.INITIATED, Status.FAILED]
      else
        canonicalPrefixThrough
          ({ buyerId := 7, sellerId := 42, productId := 1, quantity := 1
             amount := 100, fee := 5, totalAmount := 105
             status := Status.SETTLED, escrowTransactionId := none
             qrSignature := some "", settledAt := some 86400, createdAt := 0
             updatedAt := 86400 } : Txn).status :=
  c1_log_sequences (fun _ => "") [7] [⟨1, 3, 100⟩] [(3, 42)] 1
    (fun _ => 0, 0) _ (by
      have hout : (createTransactions (fun _ => "") [7] [⟨1, 3, 100⟩]
          [(3, 42)] 1 (fun _ => 0, 0)).1 =
          [{ buyerId := 7, sellerId := 42, productId := 1, quantity := 1
             amount := 100, fee := 5, totalAmount := 105
             status := Status.SETTLED, escrowTransactionId := none
             qrSignature := some "", settledAt := some 86400, createdAt := 0
             updatedAt := 86400 }] := by with_unfolding_all rfl
      rw [hout]
      exact List.mem_singleton.2 rfl)

/-- C3.  Every generated transaction's sellerId is the userId of the
cooperative owning the referenced product, and a draw whose product's
cooperative has no resolvable owner is skipped (produces no record; the
loop is total, so the pipeline does not abort). -/
theorem c3_seller_consistency (sha : String → String) (buyers : List Nat)
    (products : List ProductRec) (coops : List (Nat × Nat)) (n : Nat)
    (s : RState) :
    (∀ t ∈ (createTransactions sha buyers products coops n s).1,
      ∃ p ∈ products, t.productId = p.id ∧
        lookupSeller coops p.cooperativeId = some t.sellerId) ∧
    (∀ (st : Status) (s0 : RState),
      lookupSeller coops (drawnProduct buyers products s0).1.cooperativeId
          = none →
      (txStep sha buyers products coops st s0).1 = none) := by
  constructor
  · intro t ht
    obtain ⟨hp, st, hst, s0, s1, hs⟩ := createTransactions_mem _ _ _ _ _ _ _ ht
    obtain ⟨-, ⟨p, hpm, hpid, hsel, -⟩, -⟩ := txStep_some _ _ _ _ _ _ _ _ hp hs
    exact ⟨p, hpm, hpid, hsel⟩
  · intro st s0 hnone
    exact (txStep_none_iff sha buyers products coops st s0).2 hnone

set_option maxRecDepth 8000 in
/-- Witness for C3: in the concrete run of `c1_witness` the transaction's
seller resolves through the cooperative map, and with an empty cooperative
map the same draw is skipped. -/
theorem c3_witness :
    (∃ p ∈ [(⟨1, 3, 100⟩ : ProductRec)],
      ({ buyerId := 7, sellerId := 42, productId := 1, quantity := 1
         amount := 100, fee := 5, totalAmount := 105
         status := Status.SETTLED, escrowTransactionId := none
         qrSignature := some "", settledAt := some 86400, createdAt := 0
         updatedAt := 86400 } : Txn).productId = p.id ∧
      lookupSeller [(3, 42)] p.cooperativeId =
        some ({ buyerId := 7, sellerId := 42, productId := 1, quantity := 1
                amount := 100, fee := 5, totalAmount := 105
                status := Status.SETTLED, escrowTransactionId := none
                qrSignature := some "", settledAt := some 86400
                createdAt := 0, updatedAt := 86400 } : Txn).sellerId) ∧
    (txStep (fun _ => "") [7] [⟨1, 3, 100⟩] [] Status.SETTLED
        (fun _ => 0, 0)).1 = none :=
  ⟨(c3_seller_consistency (fun _ => "") [7] [⟨1, 3, 100⟩] [(3, 42)] 1
      (fun _ => 0, 0)).1 _ (by
        have hout : (createTransactions (fun _ => "") [7] [⟨1, 3, 100⟩]
            [(3, 42)] 1 (fun _ => 0, 0)).1 =
            [{ buyerId := 7, sellerId := 42, productId := 1, quantity := 1
               amount := 100, fee := 5, totalAmount := 105
               status := Status.SETTLED, escrowTransactionId := none
               qrSignature := some "", settledAt := some 86400, createdAt := 0
               updatedAt := 86400 }] := by with_unfolding_all rfl
        rw [hout]
        exact List.mem_singleton.2 rfl),
   (c3_seller_consistency (fun _ => "") [7] [⟨1, 3, 100⟩] [] 1
      (fun _ => 0, 0)).2 Status.SETTLED (fun _ => 0, 0) (by
        with_unfolding_all rfl)⟩

/-- C5.  For every generated transaction: amount is the product's price
times the quantity rounded to 2 decimals, fee is round(amount * 0.05, 2)
and total is round(amount + fee, 2). -/
theorem c5_money_formulas (sha : String → String) (buyers : List Nat)
    (products : List ProductRec) (coops : List (Nat × Nat)) (n : Nat)
    (s : RState) (t : Txn)
    (ht : t ∈ (createTransactions sha buyers products coops n s).1) :
    ∃ p ∈ products, t.productId = p.id ∧
      t.amount = round2 (p.price * (t.quantity : ℚ)) ∧
      t.fee = round2 (t.amount * (5 / 100)) ∧
      t.totalAmount = round2 (t.amount + t.fee) := by
  obtain ⟨hp, st, hst, s0, s1, hs⟩ := createTransactions_mem _ _ _ _ _ _ _ ht
  obtain ⟨-, ⟨p, hpm, hpid, -, hab, hfee, htot⟩, -⟩ :=
    txStep_some _ _ _ _ _ _ _ _ hp hs
  exact ⟨p, hpm, hpid, hab, hfee, htot⟩

set_option maxRecDepth 8000 in
/-- Witness for C5 at the concrete one-transaction run. -/
theorem c5_witness :
    ∃ p ∈ [(⟨1, 3, 100⟩ : ProductRec)],
      ({ buyerId := 7, sellerId := 42, productId := 1, quantity := 1
         amount := 100, fee := 5, totalAmount := 105
         status := Status.SETTLED, escrowTransactionId := none
         qrSignature := some "", settledAt := some 86400, createdAt := 0
         updatedAt := 86400 } : Txn).productId = p.id ∧
      (100 : ℚ) = round2 (p.price * ((1 : Nat) : ℚ)) ∧
      (5 : ℚ) = round2 ((100 : ℚ) * (5 / 100)) ∧
      (105 : ℚ) = round2 ((100 : ℚ) + 5) :=
  c5_money_formulas (fun _ => "") [7] [⟨1, 3, 100⟩] [(3, 42)] 1
    (fun _ => 0, 0) _ (by
      have hout : (createTransactions (fun _ => "") [7] [⟨1, 3, 100⟩]
          [(3, 42)] 1 (fun _ => 0, 0)).1 =
          [{ buyerId := 7, sellerId := 42, productId := 1, quantity := 1
             amount := 100, fee := 5, totalAmount := 105
             status := Status.SETTLED, escrowTransactionId := none
             qrSignature := some "", settledAt := some 86400, createdAt := 0
             updatedAt := 86400 }] := by with_unfolding_all rfl
      rw [hout]
      exact List.mem_singleton.2 rfl)

/-- C6.  A delivery-proof signature is present only for DELIVERED/SETTLED
transactions; the settlement timestamp is present iff the transaction is
SETTLED and then is 1 to 7 whole days after creation. -/
theorem c6_signature_settlement (sha : String → String) (buyers : List Nat)
    (products : List ProductRec) (coops : List (Nat × Nat)) (n : Nat)
    (s : RState) (t : Txn)
    (ht : t ∈ (createTransactions sha buyers products coops n s).1) :
    (t.qrSignature ≠ none →
      t.status = Status.DELIVERED ∨ t.status = Status.SETTLED) ∧
    (t.settledAt ≠ none ↔ t.status = Status.SETTLED) ∧
    (∀ u, t.settledAt = some u →
      ∃ d, 1 ≤ d ∧ d ≤ 7 ∧ u = t.createdAt + d * 86400) := by
  obtain ⟨hp, st, hst, s0, s1, hs⟩ := createTransactions_mem _ _ _ _ _ _ _ ht
  obtain ⟨hstat, -, hqr, hset, hdays⟩ := txStep_some _ _ _ _ _ _ _ _ hp hs
  rw [← hstat] at hqr hset
  exact ⟨fun h => hqr.1 h, hset, hdays⟩

set_option maxRecDepth 8000 in
/-- Witness for C6 at the concrete one-transaction run (status SETTLED,
settlement one day after creation). -/
theorem c6_witness :
    ((some "" : Option String) ≠ none →
      Status.SETTLED = Status.DELIVERED ∨ Status.SETTLED = Status.SETTLED) ∧
    ((some 86400 : Option Nat) ≠ none ↔ Status.SETTLED = Status.SETTLED) ∧
    (∀ u, (some 86400 : Option Nat) = some u →
      ∃ d, 1 ≤ d ∧ d ≤ 7 ∧ u = 0 + d * 86400) :=
  c6_signature_settlement (fun _ => "") [7] [⟨1, 3, 100⟩] [(3, 42)] 1
    (fun _ => 0, 0)
    { buyerId := 7, sellerId := 42, productId := 1, quantity := 1
      amount := 100, fee := 5, totalAmount := 105
      status := Status.SETTLED, escrowTransactionId := none
      qrSignature := some "", settledAt := some 86400, createdAt := 0
      updatedAt := 86400 } (by
      have hout : (createTransactions (fun _ => "") [7] [⟨1, 3, 100⟩]
          [(3, 42)] 1 (fun _ => 0, 0)).1 =
          [{ buyerId := 7, sellerId := 42, productId := 1, quantity := 1
             amount := 100, fee := 5, totalAmount := 105
             status := Status.SETTLED, escrowTransactionId := none
             qrSignature := some "", settledAt := some 86400, createdAt := 0
             updatedAt := 86400 }] := by with_unfolding_all rfl
      rw [hout]
      exact List.mem_singleton.2 rfl)

/-- With pairwise-distinct `(buyerId, productId, createdAt)` triples, the
`find_one` lookup for the `j`-th stored transaction returns exactly that
document and its own id. -/
theorem findOneAux_nodup :
    ∀ (store : List Txn) (i0 j : Nat) (hj : j < store.length),
      (store.map tripleOf).Nodup →
      findOneAux (store.get ⟨j, hj⟩).buyerId (store.get ⟨j, hj⟩).productId
          (store.get ⟨j, hj⟩).createdAt store i0 =
        some (i0 + j, store.get ⟨j, hj⟩) := by
  intro store
  induction store with
  | nil => intro i0 j hj; simp at hj
  | cons u us ih =>
    intro i0 j hj hnd
    rw [List.map_cons, List.nodup_cons] at hnd
    obtain ⟨hnotin, hnd'⟩ := hnd
    cases j with
    | zero =>
      show findOneAux u.buyerId u.productId u.createdAt (u :: us) i0 =
        some (i0 + 0, u)
      simp [findOneAux]
    | succ j' =>
      have hj' : j' < us.length := by simpa using hj
      have hXmem : us.get ⟨j', hj'⟩ ∈ us := List.get_mem _ _ _
      have hne : ¬((u.buyerId = (us.get ⟨j', hj'⟩).buyerId ∧
          u.productId = (us.get ⟨j', hj'⟩).productId ∧
          u.createdAt = (us.get ⟨j', hj'⟩).createdAt)) := by
        intro hc
        apply hnotin
        have heq : tripleOf u = tripleOf (us.get ⟨j', hj'⟩) := by
          unfold tripleOf
          rw [hc.1, hc.2.1, hc.2.2]
        rw [heq]
        exact List.mem_map_of_mem _ hXmem
      show findOneAux (us.get ⟨j', hj'⟩).buyerId (us.get ⟨j', hj'⟩).productId
          (us.get ⟨j', hj'⟩).createdAt (u :: us) i0 =
        some (i0 + (j' + 1), us.get ⟨j', hj'⟩)
      simp only [findOneAux]
      rw [if_neg hne, ih (i0 + 1) j' hj' hnd']
      congr 1
      rw [Prod.mk.injEq]
      exact ⟨by omega, rfl⟩

/-- C10.  Under the precondition that the (buyerId, productId, createdAt)
triples of the stored transactions are pairwise distinct, every log entry
created for a stored transaction carries that transaction's own id; and a
transaction whose triple matches no stored document gets no log entries. -/
theorem c10_log_attachment (store : List Txn)
    (hnd : (store.map tripleOf).Nodup) :
    (∀ (j : Nat) (hj : j < store.length),
      ∀ e ∈ logsForTx store (store.get ⟨j, hj⟩), e.transactionId = j) ∧
    (∀ tx : Txn,
      findOneTriple store tx.buyerId tx.productId tx.createdAt = none →
      logsForTx store tx = []) := by
  constructor
  · intro j hj e he
    have hfind : findOneTriple store (store.get ⟨j, hj⟩).buyerId
        (store.get ⟨j, hj⟩).productId (store.get ⟨j, hj⟩).createdAt =
        some (j, store.get ⟨j, hj⟩) := by
      unfold findOneTriple
      simpa using findOneAux_nodup store 0 j hj hnd
    unfold logsForTx at he
    rw [hfind] at he
    obtain ⟨x, hx, rfl⟩ := List.mem_map.1 he
    rfl
  · intro tx h
    unfold logsForTx
    rw [h]

/-- Witness for C10: a two-transaction store with distinct triples; the
logs of each stored transaction carry its own id, and an unmatched
transaction gets no logs. -/
theorem c10_witness :
    (∀ (j : Nat) (hj : j <
        ([{ buyerId := 1, sellerId := 2, productId := 3, quantity := 1
            amount := 10, fee := 1, totalAmount := 11
            status := Status.FAILED, escrowTransactionId := none
            qrSignature := none, settledAt := none, createdAt := 0
            updatedAt := 0 },
          { buyerId := 4, sellerId := 2, productId := 3, quantity := 1
            amount := 10, fee := 1, totalAmount := 11
            status := Status.ESCROWED, escrowTransactionId := none
            qrSignature := none, settledAt := none, createdAt := 5
            updatedAt := 5 }] : List Txn).length),
      ∀ e ∈ logsForTx
          [{ buyerId := 1, sellerId := 2, productId := 3, quantity := 1
             amount := 10, fee := 1, totalAmount := 11
             status := Status.FAILED, escrowTransactionId := none
             qrSignature := none, settledAt := none, createdAt := 0
             updatedAt := 0 },
           { buyerId := 4, sellerId := 2, productId := 3, quantity := 1
             amount := 10, fee := 1, totalAmount := 11
             status := Status.ESCROWED, escrowTransactionId := none
             qrSignature := none, settledAt := none, createdAt := 5
             updatedAt := 5 }]
          (([{ buyerId := 1, sellerId := 2, productId := 3, quantity := 1
               amount := 10, fee := 1, totalAmount := 11
               status := Status.FAILED, escrowTransactionId := none
               qrSignature := none, settledAt := none, createdAt := 0
               updatedAt := 0 },
             { buyerId := 4, sellerId := 2, productId := 3, quantity := 1
               amount := 10, fee := 1, totalAmount := 11
               status := Status.ESCROWED, escrowTransactionId := none
               qrSignature := none, settledAt := none, createdAt := 5
               updatedAt := 5 }] : List Txn).get ⟨j, hj⟩),
        e.transactionId = j) ∧
    (∀ tx : Txn,
      findOneTriple
          [{ buyerId := 1, sellerId := 2, productId := 3, quantity := 1
             amount := 10, fee := 1, totalAmount := 11
             status := Status.FAILED, escrowTransactionId := none
             qrSignature := none, settledAt := none, createdAt := 0
             updatedAt := 0 },
           { buyerId := 4, sellerId := 2, productId := 3, quantity := 1
             amount := 10, fee := 1, totalAmount := 11
             status := Status.ESCROWED, escrowTransactionId := none
             qrSignature := none, settledAt := none, createdAt := 5
             updatedAt := 5 }] tx.buyerId tx.productId tx.createdAt = none →
      logsForTx
          [{ buyerId := 1, sellerId := 2, productId := 3, quantity := 1
             amount := 10, fee := 1, totalAmount := 11
             status := Status.FAILED, escrowTransactionId := none
             qrSignature := none, settledAt := none, createdAt := 0
             updatedAt := 0 },
           { buyerId := 4, sellerId := 2, productId := 3, quantity := 1
             amount := 10, fee := 1, totalAmount := 11
             status := Status.ESCROWED, escrowTransactionId := none
             qrSignature := none, settledAt := none, createdAt := 5
             updatedAt := 5 }] tx = []) :=
  c10_log_attachment _ (by decide)

/-! ## Users and cooperatives data (`create_cooperatives`, claim C4) -/

inductive Role where
  | ADMIN
  | PRODUCER
  | BUYER
deriving DecidableEq, Repr

/-- Python's `round(x, 6)` used for coordinates. -/
def round6 (q : ℚ) : ℚ := (roundHalfEven (q * 1000000) : ℚ) / 1000000

/-- The fixed region table `MOROCCAN_REGIONS`:
name, centroid latitude, centroid longitude, cities. -/
def MOROCCAN_REGIONS : List (String × ℚ × ℚ × List String) :=
  [("Casablanca-Settat", 335731/10000, -75898/10000,
     ["Casablanca", "Settat", "Mohammedia", "El Jadida"]),
   ("Rabat-Salé-Kénitra", 340209/10000, -68416/10000,
     ["Rabat", "Salé", "Kénitra", "Témara"]),
   ("Fès-Meknès", 340331/10000, -50003/10000,
     ["Fès", "Meknès", "Sefrou", "Ifrane"]),
   ("Marrakech-Safi", 316295/10000, -79811/10000,
     ["Marrakech", "Safi", "Essaouira", "El Kelâa"]),
   ("Tanger-Tétouan-Al Hoceïma", 357595/10000, -58340/10000,
     ["Tanger", "Tétouan", "Al Hoceïma", "Larache"]),
   ("Oriental", 346814/10000, -19076/10000,
     ["Oujda", "Nador", "Berkane", "Taourirt"]),
   ("Béni Mellal-Khénifra", 323373/10000, -63498/10000,
     ["Béni Mellal", "Khénifra", "Azilal", "Khouribga"]),
   ("Souss-Massa", 304278/10000, -95981/10000,
     ["Agadir", "Taroudant", "Tiznit", "Oulad Teima"]),
   ("Drâa-Tafilalet", 316295/10000, -47278/10000,
     ["Errachidia", "Ouarzazate", "Zagora", "Tinghir"]),
   ("Guelmim-Oued Noun", 289869/10000, -100528/10000,
     ["Guelmim", "Sidi Ifni", "Tan-Tan", "Assa"]),
   ("Laâyoune-Sakia El Hamra", 271536/10000, -132033/10000,
     ["Laâyoune", "Boujdour", "Tarfaya", "Smara"]),
   ("Dakhla-Oued Ed-Dahab", 236849/10000, -159582/10000,
     ["Dakhla", "Aousserd", "Bir Anzarane"])]

/-- The fixed `PRODUCT_CATEGORIES` table in declaration (dict insertion)
order: category key and its keyword list (Arabic, English, French). -/
def PRODUCT_CATEGORIES : List (String × List String) :=
  [("Argan", ["زيت الأركان", "Argan Oil", "Huile d\x27Argan"]),
   ("Olive", ["زيت الزيتون", "Olive Oil", "Huile d\x27Olive"]),
   ("Honey", ["عسل", "Honey", "Miel"]),
   ("Dates", ["تمر", "Dates", "Dattes"]),
   ("Saffron", ["زعفران", "Saffron", "Safran"]),
   ("Almonds", ["لوز", "Almonds", "Amandes"]),
   ("Spices", ["بهارات", "Spices", "Épices"]),
   ("Couscous", ["كسكس", "Couscous", "Couscous"]),
   ("Tea", ["شاي", "Tea", "Thé"]),
   ("Ceramics", ["فخار", "Ceramics", "Céramique"]),
   ("Wool", ["صوف", "Wool", "Laine"]),
   ("Leather", ["جلد", "Leather", "Cuir"])]

/-- A generated cooperative document. -/
structure Coop where
  name : String
  userId : Nat
  registrationNumber : String
  region : String
  latitude : ℚ
  longitude : ℚ
  address : String
  createdAt : Nat
deriving DecidableEq, Repr

/-- `generate_cooperative_name`: one category draw, one template draw. -/
def generateCooperativeName (regionName city : String) (s : RState) :
    String × RState :=
  let c := chooseL PRODUCT_CATEGORIES ("", []) s
  let ar := c.1.2.getD 0 ""
  let en := c.1.2.getD 1 ""
  let templates :=
    ["تعاونية " ++ ar ++ " " ++ city,
     "جمعية " ++ ar ++ " " ++ regionName,
     city ++ " " ++ en ++ " Cooperative",
     "Coopérative " ++ en ++ " " ++ city,
     regionName ++ " " ++ en ++ " Collective",
     "جمعية " ++ city ++ " لل" ++ ar]
  chooseL templates "" c.2

/-- Python `str.upper()` restricted to the characters occurring in the
region names. -/
def pyUpperChar (c : Char) : Char :=
  if c = 'è' then 'È' else if c = 'é' then 'É'
  else if c = 'â' then 'Â' else c.toUpper

/-- `region['name'][:3].upper().replace(' ', '').replace('-', '')`. -/
def regPrefix (name : String) : String :=
  String.mk (((name.toList.take 3).map pyUpperChar).filter
    (fun ch => ch != ' ' && ch != '-'))

/-- `str(i+1).zfill(4)`. -/
def zfill4 (n : Nat) : String :=
  let s := toString n
  String.mk (List.replicate (4 - s.length) '0') ++ s

/-- The ids (insertion indices) of the users with a given role, in
insertion order: models `db.users.find({'role': 'PRODUCER'}, {'_id': 1})`. -/
def rolesIdx : List Role → Nat → List Nat
  | [], _ => []
  | r :: rs, i =>
    if r = Role.PRODUCER then i :: rolesIdx rs (i + 1) else rolesIdx rs (i + 1)

/-- The producer query with its `.limit(count)`. -/
def producersQuery (users : List Role) (count : Nat) : List Nat :=
  (rolesIdx users 0).take count

/-- The cooperative creation loop (lines 353-393).  `frStreet`/`enStreet`
are the opaque Faker street-name providers (each Faker call consumes one
oracle value in this model); `i` is the loop counter feeding the
registration sequence number; `used` is the `used_producers` set. -/
def coopLoop (frStreet enStreet : Nat → String) (producerIds : List Nat) :
    Nat → Nat → List Nat → RState → List Coop × RState
  | 0, _, _, s => ([], s)
  | k + 1, i, used, s =>
    let avail := producerIds.filter (fun p => !(used.contains p))
    match avail with
    | [] => ([], s)
    | _ :: _ =>
      let cp := chooseL avail 0 s
      let rg := chooseL MOROCCAN_REGIONS ("", 0, 0, []) cp.2
      let city := chooseL rg.1.2.2.2 "" rg.2
      let nm := generateCooperativeName rg.1.1 city.1 city.2
      let yr := randint 2020 2024 nm.2
      let regNumber := "REG-" ++ regPrefix rg.1.1 ++ "-" ++ toString yr.1 ++
        "-" ++ zfill4 (i + 1)
      let u1 := pyuniform (-(1 : ℚ)/2) (1/2) yr.2
      let u2 := pyuniform (-(1 : ℚ)/2) (1/2) u1.2
      let rr := pyrandom u2.2
      let sn := draw rr.2
      let streetName := if (1 : ℚ)/2 < rr.1 then frStreet sn.1 else enStreet sn.1
      let stype := chooseL ["Avenue", "Rue", "Boulevard", "Route", "Place",
        "Quartier"] "" sn.2
      let cd := draw stype.2
      let coop : Coop :=
        { name := nm.1, userId := cp.1, registrationNumber := regNumber
          region := rg.1.1, latitude := round6 (rg.1.2.1 + u1.1)
          longitude := round6 (rg.1.2.2.1 + u2.1)
          address := stype.1 ++ " " ++ streetName ++ ", " ++ city.1 ++ ", " ++
            rg.1.1 ++ ", Morocco"
          createdAt := cd.1 }
      let rest := coopLoop frStreet enStreet producerIds k (i + 1)
        (cp.1 :: used) cd.2
      (coop :: rest.1, rest.2)

/-- `create_cooperatives` (lines 337-400): producer query, silent capping
with a warning flag, and the creation loop.  The `Bool` in the result is
true iff the warning was printed. -/
def createCooperatives (frStreet enStreet : Nat → String) (users : List Role)
    (count : Nat) (s : RState) : (List Coop × Bool) × RState :=
  let producerIds := producersQuery users count
  let warned := producerIds.length < count
  let cnt := if producerIds.length < count then producerIds.length else count
  let res := coopLoop frStreet enStreet producerIds cnt 0 [] s
  ((res.1, warned), res.2)

/-! ## Lemmas about the cooperative generator -/

theorem rolesIdx_spec : ∀ (rs : List Role) (i j : Nat), j ∈ rolesIdx rs i →
    i ≤ j ∧ rs.get? (j - i) = some Role.PRODUCER := by
  intro rs
  induction rs with
  | nil => intro i j hj; simp [rolesIdx] at hj
  | cons r rs ih =>
    intro i j hj
    by_cases hr : r = Role.PRODUCER
    · simp only [rolesIdx, if_pos hr] at hj
      rcases List.mem_cons.1 hj with rfl | hj'
      · refine ⟨le_refl _, ?_⟩
        rw [Nat.sub_self]
        simp [hr]
      · obtain ⟨h1, h2⟩ := ih (i + 1) j hj'
        refine ⟨by omega, ?_⟩
        have hmk : j - i = (j - (i + 1)) + 1 := by omega
        rw [hmk]
        simpa using h2
    · simp only [rolesIdx, if_neg hr] at hj
      obtain ⟨h1, h2⟩ := ih (i + 1) j hj
      refine ⟨by omega, ?_⟩
      have hmk : j - i = (j - (i + 1)) + 1 := by omega
      rw [hmk]
      simpa using h2

theorem rolesIdx_nodup : ∀ (rs : List Role) (i : Nat), (rolesIdx rs i).Nodup := by
  intro rs
  induction rs with
  | nil => intro i; simp [rolesIdx]
  | cons r rs ih =>
    intro i
    by_cases hr : r = Role.PRODUCER
    · simp only [rolesIdx, if_pos hr]
      refine List.nodup_cons.2 ⟨?_, ih (i + 1)⟩
      intro hmem
      have := (rolesIdx_spec rs (i + 1) i hmem).1
      omega
    · simp only [rolesIdx, if_neg hr]
      exact ih (i + 1)

theorem length_filter_bne_of_nodup :
    ∀ (l : List Nat), l.Nodup → ∀ a ∈ l,
      (l.filter (fun p => p != a)).length = l.length - 1 := by
  intro l
  induction l with
  | nil => intro _ a ha; simp at ha
  | cons x xs ih =>
    intro hnd a ha
    obtain ⟨hx, hnd'⟩ := List.nodup_cons.1 hnd
    rcases List.mem_cons.1 ha with rfl | ha'
    · simp only [List.filter_cons, bne_self_eq_false, if_false,
        Bool.false_eq_true]
      have hself : xs.filter (fun p => p != a) = xs := by
        apply List.filter_eq_self.2
        intro b hb
        have : b ≠ a := fun hba => hx (hba ▸ hb)
        simpa using this
      rw [hself]
      simp
    · have hxa : (x != a) = true := by
        have : x ≠ a := fun hba => hx (hba ▸ ha')
        simpa using this
      have hlen : 1 ≤ xs.length := List.length_pos.2 (List.ne_nil_of_mem ha')
      simp only [List.filter_cons, hxa, if_true]
      rw [List.length_cons, ih hnd' a ha']
      simp only [List.length_cons]
      omega

theorem avail_shrink (pids used : List Nat) (a : Nat) :
    pids.filter (fun p => !((a :: used).contains p)) =
      (pids.filter (fun p => !(used.contains p))).filter
        (fun p => p != a) := by
  rw [List.filter_filter]
  apply List.filter_congr
  intro b _
  show (!((a :: used).contains b)) = ((b != a) && !(used.contains b))
  rw [List.contains_cons, Bool.not_or]
  rfl

/-- Number of cooperatives the loop creates: the requested count, capped by
the number of still-unused producers. -/
theorem coopLoop_length (frS enS : Nat → String) (pids : List Nat)
    (hnd : pids.Nodup) :
    ∀ (k i : Nat) (used : List Nat) (s : RState),
      (coopLoop frS enS pids k i used s).1.length =
        min k (pids.filter (fun p => !(used.contains p))).length := by
  intro k
  induction k with
  | zero => intro i used s; simp [coopLoop]
  | succ k ih =>
    intro i used s
    simp only [coopLoop]
    cases havail : pids.filter (fun p => !(used.contains p)) with
    | nil => simp
    | cons a as =>
      simp only [List.length_cons]
      have hchoose : (chooseL (a :: as) 0 s).1 ∈ a :: as := by
        apply chooseL_mem
        simp
      rw [ih]
      rw [avail_shrink, havail]
      have hflen := length_filter_bne_of_nodup (a :: as)
        (havail ▸ List.Nodup.filter _ hnd) _ hchoose
      rw [hflen]
      simp only [List.length_cons]
      omega

/-- Owners picked by the loop are unused producers, and pairwise
distinct. -/
theorem coopLoop_owners (frS enS : Nat → String) (pids : List Nat) :
    ∀ (k i : Nat) (used : List Nat) (s : RState),
      (∀ c ∈ (coopLoop frS enS pids k i used s).1,
        c.userId ∈ pids ∧ c.userId ∉ used) ∧
      ((coopLoop frS enS pids k i used s).1.map Coop.userId).Nodup := by
  intro k
  induction k with
  | zero =>
    intro i used s
    constructor
    · intro c hc
      simp [coopLoop] at hc
    · simp [coopLoop]
  | succ k ih =>
    intro i used s
    simp only [coopLoop]
    cases havail : pids.filter (fun p => !(used.contains p)) with
    | nil =>
      constructor
      · intro c hc
        simp at hc
      · simp
    | cons a as =>
      have hchoose : (chooseL (a :: as) 0 s).1 ∈ a :: as :=
        chooseL_mem _ _ _ (by simp)
      have hmf : (chooseL (a :: as) 0 s).1 ∈ pids ∧
          (chooseL (a :: as) 0 s).1 ∉ used := by
        have hin : (chooseL (a :: as) 0 s).1 ∈
            pids.filter (fun p => !(used.contains p)) := havail ▸ hchoose
        have h2 := List.mem_filter.1 hin
        exact ⟨h2.1, by simpa using h2.2⟩
      constructor
      · intro c hc
        rcases List.mem_cons.1 hc with rfl | hc'
        · exact ⟨hmf.1, hmf.2⟩
        · have h3 := (ih (i + 1) _ _).1 c hc'
          exact ⟨h3.1, fun hin => h3.2 (List.mem_cons_of_mem _ hin)⟩
      · rw [List.map_cons]
        refine List.nodup_cons.2 ⟨?_, (ih (i + 1) _ _).2⟩
        intro hmem
        obtain ⟨c, hc, hcu⟩ := List.mem_map.1 hmem
        have h3 := (ih (i + 1) _ _).1 c hc
        exact h3.2 (hcu ▸ List.mem_cons_self _ _)

/-- C4.  Each generated cooperative is owned by a distinct producer (the
assignment is injective and every owner has role PRODUCER); when the
requested count exceeds the available producer count P, exactly P
cooperatives are created and the warning flag is set (no error: the
generator is total). -/
theorem c4_distinct_owners (frStreet enStreet : Nat → String)
    (users : List Role) (count : Nat) (s : RState) :
    (((createCooperatives frStreet enStreet users count s).1.1.map
        Coop.userId).Nodup) ∧
    (∀ c ∈ (createCooperatives frStreet enStreet users count s).1.1,
      users.get? c.userId = some Role.PRODUCER) ∧
    ((rolesIdx users 0).length < count →
      (createCooperatives frStreet enStreet users count s).1.1.length =
        (rolesIdx users 0).length ∧
      (createCooperatives frStreet enStreet users count s).1.2 = true) := by
  have hndP : (producersQuery users count).Nodup :=
    List.Nodup.sublist (List.take_sublist _ _) (rolesIdx_nodup users 0)
  refine ⟨?_, ?_, ?_⟩
  · exact (coopLoop_owners frStreet enStreet (producersQuery users count)
      _ 0 [] s).2
  · intro c hc
    have h1 := (coopLoop_owners frStreet enStreet (producersQuery users count)
      _ 0 [] s).1 c hc
    have h2 : c.userId ∈ rolesIdx users 0 :=
      List.take_subset _ _ h1.1
    have h3 := rolesIdx_spec users 0 c.userId h2
    simpa using h3.2
  · intro hP
    have hPlen : (producersQuery users count).length =
        (rolesIdx users 0).length := by
      unfold producersQuery
      rw [List.length_take]
      omega
    have hfilter : (producersQuery users count).filter
        (fun p => !(([] : List Nat).contains p)) =
        producersQuery users count :=
      List.filter_eq_self.2 (fun b _ => rfl)
    constructor
    · show (coopLoop frStreet enStreet (producersQuery users count)
        (if (producersQuery users count).length < count then
          (producersQuery users count).length else count) 0 [] s).1.length =
        (rolesIdx users 0).length
      rw [if_pos (by omega)]
      rw [coopLoop_length frStreet enStreet _ hndP, hfilter, hPlen]
      omega
    · show decide ((producersQuery users count).length < count) = true
      exact decide_eq_true (by omega)

/-- Witness for C4: three users with a single producer and a request for
five cooperatives yields exactly one cooperative and the warning flag. -/
theorem c4_witness :
    (createCooperatives (fun _ => "") (fun _ => "")
        [Role.ADMIN, Role.PRODUCER, Role.BUYER] 5 (fun _ => 0, 0)).1.1.length =
      (rolesIdx [Role.ADMIN, Role.PRODUCER, Role.BUYER] 0).length ∧
    (createCooperatives (fun _ => "") (fun _ => "")
        [Role.ADMIN, Role.PRODUCER, Role.BUYER] 5 (fun _ => 0, 0)).1.2 =
      true :=
  (c4_distinct_owners (fun _ => "") (fun _ => "")
    [Role.ADMIN, Role.PRODUCER, Role.BUYER] 5 (fun _ => 0, 0)).2.2 (by decide)

/-! ## Category inference in `create_products` (claim C7) -/

/-- Python `str.lower()` restricted to the characters occurring in the
category tables (ASCII letters plus the accented capital in `Épices`). -/
def pyLowerChar (c : Char) : Char := if c = 'É' then 'é' else c.toLower

def pyLower (s : String) : String := String.map pyLowerChar s

/-- Python's substring test `needle in hay`. -/
def strContains (hay needle : String) : Bool :=
  decide (needle.toList <:+: hay.toList)

/-- `str.split()` splitting on runs of spaces (the only whitespace occurring
in the generated cooperative names). -/
def splitAux : List Char → List Char → List String
  | [], acc => if acc = [] then [] else [String.mk acc.reverse]
  | c :: cs, acc =>
    if c = ' ' then
      (if acc = [] then splitAux cs []
       else String.mk acc.reverse :: splitAux cs [])
    else splitAux cs (c :: acc)

def pySplit (s : String) : List String := splitAux s.toList []

/-- The inner loop of the inference (lines 423-426): the first category in
table order one of whose keywords contains the lowercased word. -/
def wordMatchCat (word : String) : Option String :=
  (PRODUCT_CATEGORIES.find? (fun p =>
    p.2.any (fun nm => strContains (pyLower nm) (pyLower word)))).map Prod.fst

/-- The category inference of `create_products` (lines 420-426): start from
the drawn default, then for each word of the cooperative name overwrite the
category with the word's match, if any.  The `break` in the source only
exits the inner category loop, so later matching words overwrite earlier
ones. -/
def inferCategory (dflt : String) (coopName : String) : String :=
  (pySplit coopName).foldl (fun acc word => (wordMatchCat word).getD acc) dflt

/-- The default category draw plus inference, as `create_products` runs
it. -/
def inferCategoryDraw (coopName : String) (s : RState) : String × RState :=
  let d := chooseL (PRODUCT_CATEGORIES.map Prod.fst) "" s
  (inferCategory d.1 coopName, d.2)

/-- Claim C7's reading of the inference: the FIRST word of the name with a
category match wins. -/
def inferCategoryFirstMatch (dflt : String) (coopName : String) : String :=
  ((pySplit coopName).findSome? wordMatchCat).getD dflt

/-- Counterexample to C7 as stated: on the name "Argan Honey" the code
returns the category of the last matching word ("Honey"), not of the first
matching word ("Argan"). -/
theorem c7_counterexample :
    inferCategoryFirstMatch "Tea" "Argan Honey" = "Argan" ∧
    inferCategory "Tea" "Argan Honey" = "Honey" ∧
    inferCategory "Tea" "Argan Honey" ≠
      inferCategoryFirstMatch "Tea" "Argan Honey" := by
  refine ⟨?_, ?_, ?_⟩ <;> with_unfolding_all decide

theorem foldl_override {α β : Type} (f : α → Option β) :
    ∀ (ws : List α) (d : β),
      ws.foldl (fun acc w => (f w).getD acc) d =
      (ws.reverse.findSome? f).getD d := by
  intro ws
  induction ws with
  | nil => intro d; simp
  | cons w ws ih =>
    intro d
    simp only [List.foldl_cons, List.reverse_cons]
    rw [ih, List.findSome?_append]
    cases hrev : ws.reverse.findSome? f with
    | some b => simp
    | none =>
      cases hf : f w <;> simp [List.findSome?, hf]

/-- C7 amended.  The category inferred from a cooperative's name is the one
of the LAST word with a match in the keyword tables (each word resolving to
the first matching category in table order); if no word matches, the
uniformly drawn default category is used. -/
theorem c7_amended_last_match (dflt coopName : String) :
    inferCategory dflt coopName =
      ((pySplit coopName).reverse.findSome? wordMatchCat).getD dflt := by
  unfold inferCategory
  exact foldl_override wordMatchCat (pySplit coopName) dflt

/-! ## Product generation (`create_products`, claims C8 and C9) -/

/-- The per-category product-name pools of `generate_product_name`. -/
def PRODUCT_NAMES : List (String × List String) :=
  [("Argan", ["زيت الأركان العضوي الممتاز", "Premium Organic Argan Oil",
     "زيت الأركان للبشرة", "Cosmetic Argan Oil",
     "حبات الأركان الخام", "Raw Argan Nuts"]),
   ("Olive", ["زيت الزيتون البكر الممتاز", "Extra Virgin Olive Oil",
     "زيتون أخضر", "Green Olives", "زيتون أسود", "Black Olives"]),
   ("Honey", ["عسل الأركان", "Argan Honey", "عسل الزهور البرية",
     "Wildflower Honey", "عسل الجبل", "Mountain Honey"]),
   ("Dates", ["تمر المجهول", "Medjool Dates", "تمر العجوة", "Ajwa Dates",
     "معجون التمر", "Date Paste"]),
   ("Saffron", ["زعفران خيوط ممتاز", "Premium Saffron Threads",
     "زعفران مطحون", "Ground Saffron"]),
   ("Almonds", ["لوز عضوي", "Organic Almonds", "لوز محمص",
     "Roasted Almonds"]),
   ("Spices", ["رأس الحانوت", "Ras el Hanout", "كمون", "Cumin Seeds",
     "كزبرة", "Coriander Seeds"])]

/-- `generate_product_name`: a draw from the category's pool, or the
templated fallback (no draw) for categories without a pool. -/
def generateProductName (category coopName : String) (s : RState) :
    String × RState :=
  match PRODUCT_NAMES.find? (fun p => p.1 == category) with
  | some p => chooseL p.2 "" s
  | none => (category ++ " Product", s)

/-- The price/unit branch of `create_products` (lines 432-453): CASE-
SENSITIVE substring tests on the generated product NAME. -/
def priceUnitFor (name : String) (s : RState) : (ℚ × String) × RState :=
  if strContains name "Oil" || strContains name "زيت" then
    let u := pyuniform 150 500 s
    ((round2 u.1, if strContains name "Oil" then "liter" else "كيلو"), u.2)
  else if strContains name "Honey" || strContains name "عسل" then
    let u := pyuniform 80 300 s
    ((round2 u.1, "kg"), u.2)
  else if strContains name "Dates" || strContains name "تمر" then
    let u := pyuniform 40 120 s
    ((round2 u.1, "kg"), u.2)
  else if strContains name "Saffron" || strContains name "زعفران" then
    let u := pyuniform 800 2000 s
    ((round2 u.1, "100g"), u.2)
  else if strContains name "Almonds" || strContains name "لوز" then
    let u := pyuniform 60 150 s
    ((round2 u.1, "kg"), u.2)
  else if strContains name "Spices" || strContains name "بهارات" then
    let u := pyuniform 30 150 s
    ((round2 u.1, "100g"), u.2)
  else
    let u := pyuniform 50 300 s
    let c := chooseL ["kg", "piece", "set", "100g"] "" u.2
    ((round2 u.1, c.1), c.2)

/-- The `category_seeds` table of `get_product_images`. -/
def categorySeeds : List (String × List Int) :=
  [("Argan", [100, 101, 102, 103]), ("Olive", [200, 201, 202, 203]),
   ("Honey", [300, 301, 302, 303]), ("Dates", [400, 401, 402, 403]),
   ("Saffron", [500, 501, 502, 503]), ("Almonds", [600, 601, 602, 603]),
   ("Spices", [700, 701, 702, 703]), ("Couscous", [800, 801, 802, 803]),
   ("Tea", [900, 901, 902, 903]), ("Ceramics", [1000, 1001, 1002, 1003]),
   ("Wool", [1100, 1101, 1102, 1103]),
   ("Leather", [1200, 1201, 1202, 1203])]

def mkPicsumUrl (n : Int) : String :=
  "https://picsum.photos/seed/" ++ toString n ++ "/800/800"

/-- The deterministic candidate pool of `get_product_images`
(lines 189-222): a function of the hash function `h` (Python's string
`hash`), the category and the product name only. -/
def imagePool (h : String → Int) (category name : String) : List String :=
  let seedBase : Int := (h (category ++ "_" ++ name)) % 1000
  match categorySeeds.find? (fun p => p.1 == category) with
  | some p => (p.2.map (fun sd => sd + seedBase % 10)).map mkPicsumUrl
  | none =>
    let b := seedBase + 5000
    [mkPicsumUrl b, mkPicsumUrl (b + 1), mkPicsumUrl (b + 2),
     mkPicsumUrl (b + 3)]

/-- `random.sample(xs, k)` modelled as `k` oracle-driven draws without
replacement. -/
def sampleL : Nat → List String → RState → List String × RState
  | 0, _, s => ([], s)
  | _ + 1, [], s => ([], s)
  | k + 1, x :: xs, s =>
    let r := draw s
    let i := r.1 % (x :: xs).length
    let rest := sampleL k ((x :: xs).eraseIdx i) r.2
    ((x :: xs).getD i "" :: rest.1, rest.2)

/-- `get_product_images` (lines 183-228): deterministic pool, then a random
2-4 element sample from it. -/
def getProductImages (h : String → Int) (category name : String)
    (s : RState) : List String × RState :=
  let urls := imagePool h category name
  let n := randint 2 4 s
  sampleL (min n.1 urls.length) urls n.2

/-- A generated product document. -/
structure Product where
  cooperativeId : Nat
  name : String
  description : String
  price : ℚ
  unit : String
  stockQuantity : Nat
  imageUrl : Option String
  imageUrls : List String
  deletedAt : Option Nat
  createdAt : Nat
  updatedAt : Nat
deriving DecidableEq, Repr

/-- The per-product inner loop of `create_products` (lines 429-476). -/
def prodLoop (h : String → Int) (now coopId : Nat)
    (category coopName region : String) : Nat → RState → List Product × RState
  | 0, s => ([], s)
  | k + 1, s =>
    let nm := generateProductName category coopName s
    let pu := priceUnitFor nm.1 nm.2
    let st := randint 10 500 pu.2
    let description := "Premium quality " ++ nm.1 ++ " from " ++ region ++
      ". Sustainably sourced and certified organic."
    let imgs := getProductImages h category nm.1 st.2
    let cd := draw imgs.2
    let prod : Product :=
      { cooperativeId := coopId, name := nm.1, description := description
        price := pu.1.1, unit := pu.1.2, stockQuantity := st.1
        imageUrl := imgs.1.head?, imageUrls := imgs.1, deletedAt := none
        createdAt := cd.1, updatedAt := now }
    let rest := prodLoop h now coopId category coopName region k cd.2
    (prod :: rest.1, rest.2)

/-- The per-cooperative part of `create_products`: infer the category from
the cooperative name (random default), then generate the products. -/
def coopProducts (h : String → Int) (now coopId : Nat)
    (coopName region : String) (perCoop : Nat) (s : RState) :
    List Product × RState :=
  let cat := inferCategoryDraw coopName s
  prodLoop h now coopId cat.1 coopName region perCoop cat.2

/-- `create_products` (lines 402-488): look up each cooperative document,
skip unresolvable ids, and generate `perCoop` products per cooperative. -/
def createProducts (h : String → Int) (now : Nat)
    (coopDocs : List (Nat × String × String)) (coopIds : List Nat)
    (perCoop : Nat) : RState → List Product × RState
  | s =>
    match coopIds with
    | [] => ([], s)
    | cid :: rest =>
      match coopDocs.find? (fun d => d.1 == cid) with
      | none => createProducts h now coopDocs rest perCoop s
      | some d =>
        let ps := coopProducts h now cid d.2.1 d.2.2 perCoop s
        let qs := createProducts h now coopDocs rest perCoop ps.2
        (ps.1 ++ qs.1, qs.2)

/-- Claim C8's per-CATEGORY price/unit table (the spec's reading): oils
(Argan, Olive) 150-500 per liter, honey 80-300 per kg, dates 40-120 per kg,
saffron 800-2000 per 100g, almonds 60-150 per kg, spices 30-150 per 100g,
anything else 50-300. -/
def specPriceTable (category : String) (price : ℚ) (unit : String) : Prop :=
  if category = "Argan" ∨ category = "Olive" then
    150 ≤ price ∧ price ≤ 500 ∧ unit = "liter"
  else if category = "Honey" then 80 ≤ price ∧ price ≤ 300 ∧ unit = "kg"
  else if category = "Dates" then 40 ≤ price ∧ price ≤ 120 ∧ unit = "kg"
  else if category = "Saffron" then
    800 ≤ price ∧ price ≤ 2000 ∧ unit = "100g"
  else if category = "Almonds" then 60 ≤ price ∧ price ≤ 150 ∧ unit = "kg"
  else if category = "Spices" then 30 ≤ price ∧ price ≤ 150 ∧ unit = "100g"
  else 50 ≤ price ∧ price ≤ 300

/-- Counterexample to C8 as stated: a cooperative named "Spices Collective"
gets category Spices, but its product "Cumin Seeds" (whose name contains
neither "Spices" nor the Arabic keyword) falls into the default
name-substring branch and is priced 200 with unit "kg", outside the
claimed 30-150-per-100g table row for spices. -/
theorem c8_counterexample :
    (inferCategoryDraw "Spices Collective"
      ((fun i => [0, 3, 6000].getD i 0), 0)).1 = "Spices" ∧
    ((coopProducts (fun _ => 0) 0 9 "Spices Collective" "R" 1
        ((fun i => [0, 3, 6000].getD i 0), 0)).1.map
      (fun p => (p.name, p.price, p.unit))) = [("Cumin Seeds", 200, "kg")] ∧
    ¬ specPriceTable "Spices" 200 "kg" := by
  refine ⟨?_, ?_, ?_⟩
  · with_unfolding_all decide
  · with_unfolding_all rfl
  · unfold specPriceTable
    rw [if_neg (by decide), if_neg (by decide), if_neg (by decide),
        if_neg (by decide), if_neg (by decide), if_pos rfl]
    intro hcl
    exact absurd hcl.2.1 (by norm_num)

theorem round2_uniform_bounds (a b : ℤ) (s : RState) (h : (a : ℚ) ≤ b) :
    (a : ℚ) ≤ round2 (pyuniform a b s).1 ∧
      round2 (pyuniform a b s).1 ≤ b := by
  have hu := pyuniform_mem_Icc a b s h
  exact round2_mem_Icc hu.1 hu.2

/-- C8 amended.  Price and unit are determined by case-sensitive substring
matching on the generated product NAME (not the category): names containing
"Oil" or the Arabic oil keyword get 150-500 (unit "liter" only when "Oil"
occurs, otherwise the Arabic kilo label), honey names 80-300 per kg, date
names 40-120 per kg, saffron names 800-2000 per 100g, almond names 60-150
per kg, spice names 30-150 per 100g, and all other names 50-300 with a unit
drawn from kg/piece/set/100g. -/
def namePriceSpec (name : String) (price : ℚ) (unit : String) : Prop :=
  if strContains name "Oil" || strContains name "زيت" then
    150 ≤ price ∧ price ≤ 500 ∧
      unit = (if strContains name "Oil" then "liter" else "كيلو")
  else if strContains name "Honey" || strContains name "عسل" then
    80 ≤ price ∧ price ≤ 300 ∧ unit = "kg"
  else if strContains name "Dates" || strContains name "تمر" then
    40 ≤ price ∧ price ≤ 120 ∧ unit = "kg"
  else if strContains name "Saffron" || strContains name "زعفران" then
    800 ≤ price ∧ price ≤ 2000 ∧ unit = "100g"
  else if strContains name "Almonds" || strContains name "لوز" then
    60 ≤ price ∧ price ≤ 150 ∧ unit = "kg"
  else if strContains name "Spices" || strContains name "بهارات" then
    30 ≤ price ∧ price ≤ 150 ∧ unit = "100g"
  else
    50 ≤ price ∧ price ≤ 300 ∧ unit ∈ ["kg", "piece", "set", "100g"]

theorem c8_amended_name_table (name : String) (s : RState) :
    namePriceSpec name (priceUnitFor name s).1.1
      (priceUnitFor name s).1.2 := by
  unfold namePriceSpec priceUnitFor
  by_cases h1 : strContains name "Oil" || strContains name "زيت"
  · rw [if_pos h1, if_pos h1]
    have hb := round2_uniform_bounds 150 500 s (by norm_num)
    exact ⟨by exact_mod_cast hb.1, by exact_mod_cast hb.2, rfl⟩
  · rw [if_neg h1, if_neg h1]
    by_cases h2 : strContains name "Honey" || strContains name "عسل"
    · rw [if_pos h2, if_pos h2]
      have hb := round2_uniform_bounds 80 300 s (by norm_num)
      exact ⟨by exact_mod_cast hb.1, by exact_mod_cast hb.2, rfl⟩
    · rw [if_neg h2, if_neg h2]
      by_cases h3 : strContains name "Dates" || strContains name "تمر"
      · rw [if_pos h3, if_pos h3]
        have hb := round2_uniform_bounds 40 120 s (by norm_num)
        exact ⟨by exact_mod_cast hb.1, by exact_mod_cast hb.2, rfl⟩
      · rw [if_neg h3, if_neg h3]
        by_cases h4 : strContains name "Saffron" || strContains name "زعفران"
        · rw [if_pos h4, if_pos h4]
          have hb := round2_uniform_bounds 800 2000 s (by norm_num)
          exact ⟨by exact_mod_cast hb.1, by exact_mod_cast hb.2, rfl⟩
        · rw [if_neg h4, if_neg h4]
          by_cases h5 : strContains name "Almonds" || strContains name "لوز"
          · rw [if_pos h5, if_pos h5]
            have hb := round2_uniform_bounds 60 150 s (by norm_num)
            exact ⟨by exact_mod_cast hb.1, by exact_mod_cast hb.2, rfl⟩
          · rw [if_neg h5, if_neg h5]
            by_cases h6 : strContains name "Spices" ||
              strContains name "بهارات"
            · rw [if_pos h6, if_pos h6]
              have hb := round2_uniform_bounds 30 150 s (by norm_num)
              exact ⟨by exact_mod_cast hb.1, by exact_mod_cast hb.2, rfl⟩
            · rw [if_neg h6, if_neg h6]
              have hb := round2_uniform_bounds 50 300 s (by norm_num)
              refine ⟨by exact_mod_cast hb.1, by exact_mod_cast hb.2, ?_⟩
              exact chooseL_mem _ _ _ (by simp)

/-! ## Image selection (claim C9) -/

theorem sampleL_subset :
    ∀ (k : Nat) (xs : List String) (s : RState) (u : String),
      u ∈ (sampleL k xs s).1 → u ∈ xs := by
  intro k
  induction k with
  | zero => intro xs s u hu; simp [sampleL] at hu
  | succ k ih =>
    intro xs s u hu
    cases xs with
    | nil => simp [sampleL] at hu
    | cons x xs =>
      simp only [sampleL] at hu
      rcases List.mem_cons.1 hu with rfl | hu'
      · exact getD_mem_of_lt _ _ _ (Nat.mod_lt _ (Nat.succ_pos _))
      · exact mem_of_mem_eraseIdx (ih _ _ _ hu')

theorem sampleL_length :
    ∀ (k : Nat) (xs : List String) (s : RState),
      (sampleL k xs s).1.length = min k xs.length := by
  intro k
  induction k with
  | zero => intro xs s; simp [sampleL]
  | succ k ih =>
    intro xs s
    cases xs with
    | nil => simp [sampleL]
    | cons x xs =>
      simp only [sampleL, List.length_cons]
      rw [ih]
      have hlt : (draw s).1 % (x :: xs).length < (x :: xs).length :=
        Nat.mod_lt _ (Nat.succ_pos _)
      have he := List.length_eraseIdx_add_one hlt
      have hE : ((x :: xs).eraseIdx ((draw s).1 % (xs.length + 1))).length =
          xs.length := by
        simp only [List.length_cons] at he hlt
        omega
      rw [hE, Nat.succ_min_succ]

theorem imagePool_length (h : String → Int) (category name : String) :
    (imagePool h category name).length = 4 := by
  unfold imagePool
  cases hf : categorySeeds.find? (fun p => p.1 == category) with
  | none => simp
  | some p =>
    have hmem := List.mem_of_find?_eq_some hf
    have hlen : ∀ e ∈ categorySeeds, e.2.length = 4 := by decide
    simp [hlen p hmem]

/-- Counterexample to C9 as stated: with the same hash function, category
and product name, two invocations differing only in the random stream
return different image sets (the 2-4 element sample is drawn from the
process-global generator, not from the category+name seed). -/
theorem c9_counterexample :
    (getProductImages (fun _ => 0) "Argan" "X" ((fun _ => 0), 0)).1.toFinset ≠
      (getProductImages (fun _ => 0) "Argan" "X" ((fun _ => 1), 0)).1.toFinset
    := by
  with_unfolding_all decide

/-- C9 amended.  Same category+name (and hash function) determine the
4-element candidate pool; every returned list is 2-4 URLs all drawn from
that pool (only the pool, not the selected subset, is deterministic), and
`create_products` marks the first returned URL as the primary image. -/
theorem c9_amended_pool :
    (∀ (h : String → Int) (category name : String) (s : RState),
      2 ≤ (getProductImages h category name s).1.length ∧
      (getProductImages h category name s).1.length ≤ 4 ∧
      ∀ u ∈ (getProductImages h category name s).1,
        u ∈ imagePool h category name) ∧
    (∀ (h : String → Int) (now coopId : Nat)
        (category coopName region : String) (k : Nat) (s : RState)
        (p : Product), p ∈ (prodLoop h now coopId category coopName region
          k s).1 →
      p.imageUrl = p.imageUrls.head?) := by
  constructor
  · intro h category name s
    have hlen : (getProductImages h category name s).1.length =
        min (randint 2 4 s).1 4 := by
      unfold getProductImages
      rw [sampleL_length, imagePool_length]
      simp [Nat.min_assoc]
    have hr := randint_bounds 2 4 s (by norm_num)
    refine ⟨?_, ?_, ?_⟩
    · rw [hlen]; omega
    · rw [hlen]; omega
    · intro u hu
      exact sampleL_subset _ _ _ _ hu
  · intro h now coopId category coopName region k
    induction k with
    | zero => intro s p hp; simp [prodLoop] at hp
    | succ k ih =>
      intro s p hp
      simp only [prodLoop] at hp
      rcases List.mem_cons.1 hp with rfl | hp'
      · rfl
      · exact ih _ _ hp'

set_option maxRecDepth 8000 in
/-- Witness for C9 (amended): concrete image draws stay inside the pool
with 2-4 elements, and a concrete generated product has its first image as
primary. -/
theorem c9_witness :
    (2 ≤ (getProductImages (fun _ => 0) "Argan" "X"
        ((fun _ => 0), 0)).1.length ∧
      (getProductImages (fun _ => 0) "Argan" "X"
        ((fun _ => 0), 0)).1.length ≤ 4 ∧
      ∀ u ∈ (getProductImages (fun _ => 0) "Argan" "X" ((fun _ => 0), 0)).1,
        u ∈ imagePool (fun _ => 0) "Argan" "X") ∧
    ({ cooperativeId := 9, name := "رأس الحانوت"
       description := "Premium quality رأس الحانوت from R. Sustainably sourced and certified organic."
       price := 50, unit := "kg", stockQuantity := 10
       imageUrl := some "https://picsum.photos/seed/700/800/800"
       imageUrls := ["https://picsum.photos/seed/700/800/800",
         "https://picsum.photos/seed/701/800/800"]
       deletedAt := none, createdAt := 0, updatedAt := 0 } : Product).imageUrl
      = ({ cooperativeId := 9, name := "رأس الحانوت"
           description := "Premium quality رأس الحانوت from R. Sustainably sourced and certified organic."
           price := 50, unit := "kg", stockQuantity := 10
           imageUrl := some "https://picsum.photos/seed/700/800/800"
           imageUrls := ["https://picsum.photos/seed/700/800/800",
             "https://picsum.photos/seed/701/800/800"]
           deletedAt := none, createdAt := 0, updatedAt := 0 } :
          Product).imageUrls.head? :=
  ⟨c9_amended_pool.1 (fun _ => 0) "Argan" "X" ((fun _ => 0), 0),
   c9_amended_pool.2 (fun _ => 0) 0 9 "Spices" "SpicesCoop" "R" 1
     ((fun _ => 0), 0) _ (by
       have hout : (prodLoop (fun _ => 0) 0 9 "Spices" "SpicesCoop" "R" 1
           ((fun _ => 0), 0)).1 =
           [{ cooperativeId := 9, name := "رأس الحانوت"
              description := "Premium quality رأس الحانوت from R. Sustainably sourced and certified organic."
              price := 50, unit := "kg", stockQuantity := 10
              imageUrl := some "https://picsum.photos/seed/700/800/800"
              imageUrls := ["https://picsum.photos/seed/700/800/800",
                "https://picsum.photos/seed/701/800/800"]
              deletedAt := none, createdAt := 0, updatedAt := 0 }] := by
         with_unfolding_all rfl
       rw [hout]
       exact List.mem_singleton.2 rfl)⟩

/-! ## User generation (`create_users`, claim C2) -/

def MOROCCAN_FIRST_NAMES : List String :=
  ["Ahmed", "Mohammed", "Fatima", "Aicha", "Hassan", "Youssef", "Sanae",
   "Karim", "Laila", "Omar", "Nadia", "Rachid", "Samira", "Khalid", "Souad",
   "Mehdi", "Salma", "Amine", "Nour", "Reda", "Imane", "Bilal", "Houda",
   "Anass", "Sara", "Hamza", "Zineb", "Yassine", "Meriem", "Adil", "Nabila",
   "Tarik", "Hafsa", "Walid", "Khadija", "Said", "Amina", "Jamal", "Latifa",
   "Nabil"]

def MOROCCAN_LAST_NAMES : List String :=
  ["Alaoui", "Benali", "Bennani", "Berrada", "Chraibi", "El Fassi",
   "El Idrissi", "El Malki", "El Ouazzani", "Fassi", "Filali", "Hajji",
   "Hamdaoui", "Idrissi", "Kettani", "Lahlou", "Lamrani", "Mansouri",
   "Mekouar", "Ouazzani", "Rahali", "Saadi", "Tazi", "Touimi", "Zahiri",
   "Zouhair", "Amrani", "Bouazza", "Cherkaoui", "Dahbi", "El Amrani",
   "El Bakkali", "El Haddadi", "El Harrak", "El Kettani", "El Malki",
   "El Ouazzani", "El Yousfi", "Fadili", "Fassi", "Hajji", "Hamdaoui"]

/-- The 68 valid mobile prefixes of `generate_moroccan_phone`. -/
def PHONE_PREFIXES : List String :=
  ["612", "613", "614", "615", "616", "617", "618", "619", "620", "621",
   "622", "623", "624", "625", "626", "627", "628", "629", "630", "631",
   "632", "633", "634", "635", "636", "637", "638", "639", "640", "641",
   "642", "643", "644", "645", "646", "647", "648", "649", "650", "651",
   "652", "653", "654", "655", "656", "657", "658", "659", "660", "661",
   "662", "663", "664", "665", "666", "667", "668", "669", "670", "671",
   "672", "673", "674", "675", "676", "677", "678", "679"]

/-- Six random digits, drawn left to right. -/
def digitsAux : Nat → RState → String × RState
  | 0, s => ("", s)
  | k + 1, s =>
    let d := randint 0 9 s
    let rest := digitsAux k d.2
    (toString d.1 ++ rest.1, rest.2)

/-- `generate_moroccan_phone` (lines 117-122). -/
def genPhone (s : RState) : String × RState :=
  let p := chooseL PHONE_PREFIXES "" s
  let d := digitsAux 6 p.2
  ("212" ++ p.1 ++ d.1, d.2)

/-- A generated user document. -/
structure User where
  email : String
  phone : String
  passwordHash : String
  role : Role
  createdAt : Nat
  updatedAt : Nat
deriving DecidableEq, Repr

/-- The email candidates tried by the collision loop for loop index `i`:
first `{base}{i}@sou9na.ma`, then `{base}{i}{counter}@sou9na.ma`. -/
def emailCand (base : String) (i : Nat) : Nat → String
  | 0 => base ++ toString i ++ "@sou9na.ma"
  | k + 1 => base ++ toString i ++ toString k ++ "@sou9na.ma"

/-- The `while email in used_emails` loop: the first fresh candidate.  The
candidates of one call are pairwise distinct, so among the first
`used.length + 1` of them one is always fresh and the fallback is
unreachable. -/
def firstFresh (cand : Nat → String) (used : List String) : String :=
  match (List.range (used.length + 1)).find?
      (fun k => !(used.contains (cand k))) with
  | some k => cand k
  | none => cand (used.length + 1)

/-- The `while phone in used_phones` retry loop, fuelled (the source loops
until a fresh phone appears; fuel exhaustion returns the last attempt and
is unreachable in the runs modelled here). -/
def phoneRetry : Nat → List String → RState → String × RState
  | 0, _, s => genPhone s
  | f + 1, used, s =>
    let p := genPhone s
    if used.contains p.1 then phoneRetry f used p.2 else p

/-- One non-admin user (lines 266-293 and 296-323): name draws, unique
email, unique-among-generated phone, Faker creation date. -/
def makeUser (pwHash : String) (now fuel : Nat) (role : Role) (i : Nat)
    (usedE usedP : List String) (s : RState) :
    User × (List String × List String) × RState :=
  let fn := chooseL MOROCCAN_FIRST_NAMES "" s
  let ln := chooseL MOROCCAN_LAST_NAMES "" fn.2
  let base := pyLower fn.1 ++ "." ++ pyLower ln.1
  let email := firstFresh (emailCand base i) usedE
  let ph := phoneRetry fuel usedP ln.2
  let cd := draw ph.2
  ({ email := email, phone := ph.1, passwordHash := pwHash, role := role
     createdAt := cd.1, updatedAt := now },
   (email :: usedE, ph.1 :: usedP), cd.2)

def usersLoop (pwHash : String) (now fuel : Nat) (role : Role) :
    Nat → Nat → List String → List String → RState →
    List User × (List String × List String) × RState
  | 0, _, usedE, usedP, s => ([], (usedE, usedP), s)
  | k + 1, i, usedE, usedP, s =>
    let u := makeUser pwHash now fuel role i usedE usedP s
    let rest := usersLoop pwHash now fuel role k (i + 1) u.2.1.1 u.2.1.2 u.2.2
    (u.1 :: rest.1, rest.2)

/-- `create_users` (lines 242-335): the fixed admin record (whose email and
phone are NOT added to the used sets), then producers (20% of the
remainder, `int` truncated) and buyers.  `pwHash` is the shared bcrypt
hash, `now` the wall-clock time. -/
def createUsers (pwHash : String) (now fuel : Nat) (count : Nat)
    (s : RState) : List User × RState :=
  let admin : User :=
    { email := "admin@sou9na.ma", phone := "212612000000"
      passwordHash := pwHash, role := Role.ADMIN, createdAt := now
      updatedAt := now }
  let producerCount := (count - 1) * 2 / 10
  let buyerCount := count - 1 - producerCount
  let pr := usersLoop pwHash now fuel Role.PRODUCER producerCount 0 [] [] s
  let br := usersLoop pwHash now fuel Role.BUYER buyerCount 0
    pr.2.1.1 pr.2.1.2 pr.2.2
  (admin :: (pr.1 ++ br.1), br.2.2)

/-- C2 fails on the code: the admin's fixed phone `212612000000` is never
added to `used_phones`, and `generate_moroccan_phone` can reproduce it
(prefix `612`, six zero digits).  On the all-zero oracle with `count = 2`
the single generated buyer receives exactly the admin's phone. -/
theorem c2_phone_collision :
    ((createUsers "h" 99 5 2 ((fun _ => 0), 0)).1.map
      (fun u => u.role)) = [Role.ADMIN, Role.BUYER] ∧
    ((createUsers "h" 99 5 2 ((fun _ => 0), 0)).1.map
      (fun u => u.phone)) = ["212612000000", "212612000000"] ∧
    ¬ (((createUsers "h" 99 5 2 ((fun _ => 0), 0)).1.map
      (fun u => u.phone)).Nodup) := by
  refine ⟨?_, ?_, ?_⟩ <;> with_unfolding_all decide
